import Mathlib

/-!
Verification of the mediasoup-demo signaling gateway (server/server.js and
server/room.js): worker-pool round-robin selection, the room registry with
its serialized creation queue, the protoo connection-request handler, the
worker death handler, and the Express REST layer with its terminal error
handler. JavaScript state is embedded as explicit state-passing records;
JS `Map` becomes an association list; JS falsiness of query parameters and
of `error.status` is modelled explicitly.
-/

/-! ## Worker pool (server.js: mediasoupWorkers / nextMediasoupWorkerIdx / getMediasoupWorker) -/

/-- Workers are opaque handles; we model one by its pid (a `Nat`).
The pool is the `mediasoupWorkers` array plus the `nextMediasoupWorkerIdx` cursor. -/
structure WorkerPool where
  mediasoupWorkers : List Nat
  nextMediasoupWorkerIdx : Nat
deriving DecidableEq

/-- Embedding of `getMediasoupWorker` (server.js lines 234-241):
read `mediasoupWorkers[nextMediasoupWorkerIdx]` (out-of-range access yields
JS `undefined`, here `none`), then pre-increment the cursor and reset it to 0
exactly when it equals the array length. -/
def getMediasoupWorker (p : WorkerPool) : Option Nat × WorkerPool :=
  let worker := p.mediasoupWorkers.get? p.nextMediasoupWorkerIdx
  let idx := p.nextMediasoupWorkerIdx + 1
  let idx := if idx = p.mediasoupWorkers.length then 0 else idx
  (worker, { p with nextMediasoupWorkerIdx := idx })

/-- Run `k` consecutive `getMediasoupWorker` calls, collecting the returned
workers in order together with the final pool state. -/
def workerCalls : WorkerPool → Nat → List (Option Nat) × WorkerPool
  | p, 0 => ([], p)
  | p, k + 1 =>
    let r := getMediasoupWorker p
    let rest := workerCalls r.2 k
    (r.1 :: rest.1, rest.2)

/-! ## Association-list model of the JS `Map` of rooms (room.js line 9) -/

/-- Lookup in a JS `Map` keyed by strings. -/
def mapLookup (m : List (String × Nat)) (k : String) : Option Nat :=
  match m with
  | [] => none
  | (k', v) :: rest => if k' = k then some v else mapLookup rest k

/-- The JS `Map.set`: replace the binding if the key is present, else append. -/
def mapSet (m : List (String × Nat)) (k : String) (v : Nat) : List (String × Nat) :=
  match m with
  | [] => [(k, v)]
  | (k', v') :: rest => if k' = k then (k', v) :: rest else (k', v') :: mapSet rest k v

/-- The JS `Map.delete`: remove the binding for the key. -/
def mapDelete (m : List (String × Nat)) (k : String) : List (String × Nat) :=
  match m with
  | [] => []
  | (k', v') :: rest => if k' = k then mapDelete rest k else (k', v') :: mapDelete rest k

/-! ## Gateway state and getOrCreateRoom (server.js lines 246-262) -/

/-- Mutable state of the gateway touched by `getOrCreateRoom`:
the worker pool, the `rooms` map, the set of registered room close handlers
(pairs roomId/room instance), a fresh-instance counter standing for `new Room`
object identity, a counter of `Room.create` invocations, and the log. -/
structure GatewayState where
  pool : WorkerPool
  rooms : List (String × Nat)
  closeHandlers : List (String × Nat)
  nextInstance : Nat
  constructions : Nat
  log : List String
deriving DecidableEq

/-- Embedding of `getOrCreateRoom` (server.js lines 246-262).
`createFails = some e` models `Room.create` rejecting with error `e`
(the room is an external collaborator, so its outcome is an oracle);
`none` models successful creation. On a registry hit the state is untouched.
On a miss: log, select a worker (this advances the round-robin cursor
before `Room.create` is awaited), run `Room.create`; on success insert the
room into the map and register the `close` handler; on failure the error
propagates and neither the map nor the handler registration happens. -/
def getOrCreateRoom (createFails : Option String) (roomId : String)
    (s : GatewayState) : Except String Nat × GatewayState :=
  match mapLookup s.rooms roomId with
  | some room => (.ok room, s)
  | none =>
    let log' := s.log ++ ["creating a new Room roomId:" ++ roomId]
    let (_worker, pool') := getMediasoupWorker s.pool
    match createFails with
    | some e =>
      (.error e, { s with pool := pool', constructions := s.constructions + 1, log := log' })
    | none =>
      let room := s.nextInstance
      (.ok room,
       { s with
          pool := pool'
          rooms := mapSet s.rooms roomId room
          closeHandlers := (roomId, room) :: s.closeHandlers
          nextInstance := s.nextInstance + 1
          constructions := s.constructions + 1
          log := log' })

/-- The close handler registered in `getOrCreateRoom`
(server.js line 258: `room.on("close", () => rooms.delete(roomId))`):
firing it deletes the registry entry for `roomId`. -/
def roomClose (roomId : String) (s : GatewayState) : GatewayState :=
  { s with rooms := mapDelete s.rooms roomId }

/-- K `getOrCreateRoom` calls for the same `roomId`, executed back-to-back as
the global FIFO `AwaitQueue` serializes them (each queued unit runs
start-to-finish before the next begins); all `Room.create` calls succeed. -/
def getOrCreateK (roomId : String) : Nat → GatewayState → List (Except String Nat) × GatewayState
  | 0, s => ([], s)
  | k + 1, s =>
    let r := getOrCreateRoom none roomId s
    let rest := getOrCreateK roomId k r.2
    (r.1 :: rest.1, rest.2)

/-! ## Protoo connection-request handler (server.js lines 191-228) -/

/-- JS falsiness of a URL query parameter: `!x` holds when the parameter is
absent (`undefined`) or the empty string. -/
def jsFalsyStr : Option String → Bool
  | none => true
  | some s => s.isEmpty

/-- A unit of work pushed onto the global `AwaitQueue` by the
connectionrequest handler: it carries the captured roomId and peerId. -/
structure QueueItem where
  roomId : String
  peerId : String
deriving DecidableEq

/-- Full server state seen by the connectionrequest handler: the gateway
state plus the pending FIFO queue of units of work. -/
structure ServerState where
  gw : GatewayState
  queue : List QueueItem
deriving DecidableEq

/-- Immediate decision of the connectionrequest handler: either an immediate
`reject(status, reason)` or the request was queued for acceptance. -/
inductive ConnDecision
  | rejected (status : Nat) (reason : String)
  | queued
deriving DecidableEq

/-- Embedding of the `connectionrequest` handler (server.js lines 191-228):
extract `roomId` and `peerId` from the URL query; if either is falsy,
`reject(400, "Connection request without roomId and/or peerId")` and return;
otherwise push the acceptance unit of work onto the global FIFO queue. -/
def connectionRequest (roomId peerId : Option String) (s : ServerState) :
    ConnDecision × ServerState :=
  if jsFalsyStr roomId || jsFalsyStr peerId then
    (.rejected 400 "Connection request without roomId and/or peerId", s)
  else
    (.queued, { s with queue := s.queue ++ [⟨roomId.getD (""), peerId.getD ("")⟩] })

/-- Outcome of running one queued acceptance unit: the protoo connection was
accepted and handed to the room, or rejected with an error as reason. -/
inductive TaskOutcome
  | accepted
  | rejectedWith (e : String)
deriving DecidableEq

/-- Embedding of the unit of work pushed in server.js lines 214-227 together
with its `.catch` boundary: `getOrCreateRoom`, then `accept()`, then
`room.handleProtooConnection` (an external call whose failure is the oracle
`handleFails`). Any error from the unit is logged and turned into a
rejection of the original connection request. -/
def runQueuedTask (createFails handleFails : Option String) (item : QueueItem)
    (s : GatewayState) : TaskOutcome × GatewayState :=
  let r := getOrCreateRoom createFails item.roomId s
  match r.1 with
  | .error e =>
    (.rejectedWith e,
     { r.2 with log := r.2.log ++ ["room creation or room joining failed:" ++ e] })
  | .ok _room =>
    match handleFails with
    | some e =>
      (.rejectedWith e,
       { r.2 with log := r.2.log ++ ["room creation or room joining failed:" ++ e] })
    | none => (.accepted, r.2)

/-- One step of the global FIFO queue: pop the front unit of work and run it.
A failed unit is not re-enqueued (the gateway does not retry). -/
def processQueueStep (createFails handleFails : Option String) (s : ServerState) :
    Option TaskOutcome × ServerState :=
  match s.queue with
  | [] => (none, s)
  | item :: rest =>
    let r := runQueuedTask createFails handleFails item s.gw
    (some r.1, { gw := r.2, queue := rest })

/-! ## Worker death handler (server.js lines 128-135) -/

/-- Timer/process state for the death handler: the current clock (ms), the
pending `setTimeout` entries as (fire time, process exit code), the worker
pool membership, and the log. -/
structure TimerState where
  now : Nat
  timers : List (Nat × Nat)
  workers : List Nat
  log : List String
deriving DecidableEq

/-- Embedding of the `died` handler (server.js lines 128-135): log the event
with the worker pid and `setTimeout(() => process.exit(1), 2000)`. -/
def onWorkerDied (pid : Nat) (t : TimerState) : TimerState :=
  { t with
     timers := t.timers ++ [(t.now + 2000, 1)]
     log := t.log ++ ["mediasoup Worker died, exiting in 2 seconds... pid:" ++ toString pid] }

/-- Advance the clock to `time` and fire every timer due by then, collecting
the process exit codes that fire. -/
def advanceTo (time : Nat) (t : TimerState) : List Nat × TimerState :=
  let fired := (t.timers.filter (fun e => decide (e.1 ≤ time))).map (·.2)
  (fired, { t with now := time, timers := t.timers.filter (fun e => decide (¬ e.1 ≤ time)) })

/-! ## Express REST layer (room.js) -/

/-- A JS `Error` as the REST layer sees it: `name`, `message`, and an
optional `status` field (absent on plain errors). -/
structure JsError where
  name : String
  message : String
  status : Option Nat
deriving DecidableEq

/-- JS `String(error)`, i.e. `Error.prototype.toString`: empty name yields
the message alone, empty message yields the name alone, otherwise
`name + ": " + message`. -/
def errorToString (e : JsError) : String :=
  if e.name = "" then e.message
  else if e.message = "" then e.name
  else e.name ++ ": " ++ e.message

/-- An HTTP response produced by the Express app: status code, the
`res.statusMessage` override when one is set, the body, and whether the
body was sent as JSON. -/
structure RestResponse where
  status : Nat
  statusMessage : Option String
  body : String
  isJson : Bool
deriving DecidableEq

/-- Embedding of the terminal Express error handler (room.js lines 248-259):
`error.status = error.status || (error.name === "TypeError" ? 400 : 500)`
(JS `||` treats an explicit status of 0 as absent), then
`res.statusMessage = error.message` and
`res.status(error.status).send(String(error))`. Also returns the warning
log entry `"Express app " + String(error)`. -/
def expressErrorHandler (e : JsError) : RestResponse × List String :=
  let status :=
    match e.status with
    | some s => if s = 0 then (if e.name = "TypeError" then 400 else 500) else s
    | none => if e.name = "TypeError" then 400 else 500
  ({ status := status
     statusMessage := some e.message
     body := errorToString e
     isJson := false },
   ["Express app " ++ errorToString e])

/-- The endpoints of the `/rooms/:roomId` family (room.js lines 47-243). -/
inductive Endpoint
  | getRoom
  | createBroadcaster
  | deleteBroadcaster
  | createTransport
  | connectTransport
  | createProducer
  | createConsumer
  | createDataConsumer
  | createDataProducer
deriving DecidableEq

/-- The Room delegate method each endpoint invokes. -/
def roomMethodName : Endpoint → String
  | .getRoom => "getRouterRtpCapabilities"
  | .createBroadcaster => "createBroadcaster"
  | .deleteBroadcaster => "deleteBroadcaster"
  | .createTransport => "createBroadcasterTransport"
  | .connectTransport => "connectBroadcasterTransport"
  | .createProducer => "createBroadcasterProducer"
  | .createConsumer => "createBroadcasterConsumer"
  | .createDataConsumer => "createBroadcasterDataConsumer"
  | .createDataProducer => "createBroadcasterDataProducer"

/-- Embedding of one REST request through the Express app for any endpoint
of the `/rooms/:roomId` family. The `roomId` param middleware
(room.js lines 29-41) runs first: when the room is absent it throws an
`Error` with `status = 404` and message `room with id "<id>" not found`,
which the terminal error handler turns into the response, and no Room
method runs. When the room exists, the endpoint invokes its Room delegate
(the external Room's outcome is the oracle `delegate`); success yields
200 with the JSON data (plain text `"broadcaster deleted"` for the delete
endpoint), failure is funneled to the terminal error handler. Returns the
response, the list of Room methods invoked, and the rooms map afterwards
(no endpoint writes to it). -/
def handleRestRequest (rooms : List (String × Nat)) (roomId : String)
    (ep : Endpoint) (delegate : Endpoint → Except JsError String) :
    RestResponse × List String × List (String × Nat) :=
  match mapLookup rooms roomId with
  | none =>
    let e : JsError :=
      { name := "Error"
        message := "room with id \"" ++ roomId ++ "\" not found"
        status := some 404 }
    ((expressErrorHandler e).1, [], rooms)
  | some _room =>
    match delegate ep with
    | .ok data =>
      match ep with
      | .deleteBroadcaster =>
        ({ status := 200, statusMessage := none, body := "broadcaster deleted",
           isJson := false }, [roomMethodName ep], rooms)
      | _ =>
        ({ status := 200, statusMessage := none, body := data, isJson := true },
         [roomMethodName ep], rooms)
    | .error e => ((expressErrorHandler e).1, [roomMethodName ep], rooms)

/-! ## Helper lemmas -/

theorem getMediasoupWorker_eq (ws : List Nat) (c : Nat) (hc : c < ws.length) :
    getMediasoupWorker ⟨ws, c⟩ = (ws.get? c, ⟨ws, (c + 1) % ws.length⟩) := by
  unfold getMediasoupWorker
  by_cases h : c + 1 = ws.length
  · simp [h, Nat.mod_self]
  · have hlt : c + 1 < ws.length := Nat.lt_of_le_of_ne (Nat.succ_le_of_lt hc) h
    simp [h, Nat.mod_eq_of_lt hlt]

theorem workerCalls_eq (k : Nat) : ∀ (ws : List Nat) (c : Nat), c < ws.length →
    workerCalls ⟨ws, c⟩ k =
      ((List.range k).map (fun i => ws.get? ((c + i) % ws.length)),
       ⟨ws, (c + k) % ws.length⟩) := by
  induction k with
  | zero =>
    intro ws c hc
    simp [workerCalls, Nat.mod_eq_of_lt hc]
  | succ k ih =>
    intro ws c hc
    have hpos : 0 < ws.length := Nat.lt_of_le_of_lt (Nat.zero_le c) hc
    have hc' : (c + 1) % ws.length < ws.length := Nat.mod_lt _ hpos
    rw [workerCalls, getMediasoupWorker_eq ws c hc]
    simp only
    rw [ih ws ((c + 1) % ws.length) hc']
    refine Prod.ext ?_ ?_
    · simp only
      rw [List.range_succ_eq_map, List.map_cons, List.map_map]
      refine congrArg₂ _ ?_ ?_
      · rw [Nat.add_zero, Nat.mod_eq_of_lt hc]
      · refine List.map_congr_left ?_
        intro i _
        simp only [Function.comp_apply]
        rw [Nat.mod_add_mod]
        have : c + 1 + i = c + (i + 1) := by omega
        rw [this]
    · simp only
      rw [Nat.mod_add_mod]
      have : c + 1 + k = c + (k + 1) := by omega
      rw [this]

/-- C2: for every pool of N workers (N >= 1) and every valid cursor state,
N consecutive `getMediasoupWorker` calls return each worker of the pool
exactly once, in (cyclic) pool order — the returned sequence is exactly the
pool rotated to start at the cursor, which is a permutation of the pool —
the (N+1)-th call returns the same worker as the first call again, and
after every call the cursor indexes a valid pool slot. -/
theorem round_robin_fair (ws : List Nat) (c : Nat) (hc : c < ws.length) :
    (workerCalls ⟨ws, c⟩ ws.length).1 = (ws.rotate c).map some ∧
    (ws.rotate c).Perm ws ∧
    (workerCalls ⟨ws, c⟩ (ws.length + 1)).1.get? ws.length =
      (workerCalls ⟨ws, c⟩ (ws.length + 1)).1.get? 0 ∧
    ∀ k, (workerCalls ⟨ws, c⟩ k).2.nextMediasoupWorkerIdx < ws.length := by
  have hpos : 0 < ws.length := Nat.lt_of_le_of_lt (Nat.zero_le c) hc
  refine ⟨?_, List.rotate_perm ws c, ?_, ?_⟩
  · rw [workerCalls_eq ws.length ws c hc]
    refine List.ext_get?' ?_
    intro n hn
    have hlen : max ((List.range ws.length).map
        (fun i => ws.get? ((c + i) % ws.length))).length
        ((ws.rotate c).map some).length = ws.length := by
      simp
    rw [hlen] at hn
    rw [List.get?_map, List.get?_map, List.get?_range hn, List.get?_rotate hn]
    have hmod : (n + c) % ws.length < ws.length := Nat.mod_lt _ hpos
    rw [List.get?_eq_get hmod]
    simp [Nat.add_comm n c]
  · rw [workerCalls_eq (ws.length + 1) ws c hc]
    simp only
    rw [List.get?_map, List.get?_map, List.get?_range (by omega),
      List.get?_range (by omega)]
    simp only [Option.map_some']
    have h1 : (c + ws.length) % ws.length = c := by
      rw [Nat.add_mod_right, Nat.mod_eq_of_lt hc]
    have h2 : (c + 0) % ws.length = c := by
      rw [Nat.add_zero, Nat.mod_eq_of_lt hc]
    rw [h1, h2]
  · intro k
    rw [workerCalls_eq k ws c hc]
    exact Nat.mod_lt _ hpos

/-- Witness for `round_robin_fair` at the concrete pool [10, 20, 30] with
cursor 1: the hypothesis 1 < 3 holds and the three calls return workers
20, 30, 10. -/
theorem round_robin_fair_witness :
    1 < ([10, 20, 30] : List Nat).length ∧
    (workerCalls ⟨[10, 20, 30], 1⟩ ([10, 20, 30] : List Nat).length).1 =
      [some 20, some 30, some 10] := by
  refine ⟨by decide, ?_⟩
  have h := (round_robin_fair [10, 20, 30] 1 (by decide)).1
  rw [h]
  decide

theorem mapLookup_mapSet_self (m : List (String × Nat)) (k : String) (v : Nat) :
    mapLookup (mapSet m k v) k = some v := by
  induction m with
  | nil => simp [mapSet, mapLookup]
  | cons p rest ih =>
    by_cases h : p.1 = k
    · simp [mapSet, mapLookup, h]
    · simp [mapSet, mapLookup, h, ih]

theorem mapLookup_mapSet_other (m : List (String × Nat)) (k k' : String) (v : Nat)
    (hne : k' ≠ k) : mapLookup (mapSet m k v) k' = mapLookup m k' := by
  have hkk : ¬ k = k' := fun h => hne h.symm
  induction m with
  | nil => simp [mapSet, mapLookup, hkk]
  | cons p rest ih =>
    by_cases h : p.1 = k
    · have h2 : ¬ p.1 = k' := by rw [h]; exact hkk
      simp [mapSet, mapLookup, h, h2, hkk]
    · by_cases h2 : p.1 = k'
      · simp [mapSet, mapLookup, h, h2, hne, ih]
      · simp [mapSet, mapLookup, h, h2, ih]

theorem mapLookup_mapDelete_self (m : List (String × Nat)) (k : String) :
    mapLookup (mapDelete m k) k = none := by
  induction m with
  | nil => simp [mapDelete, mapLookup]
  | cons p rest ih =>
    by_cases h : p.1 = k
    · simp [mapDelete, h, ih]
    · simp [mapDelete, mapLookup, h, ih]

theorem getOrCreateRoom_hit (cf : Option String) (roomId : String) (s : GatewayState)
    (r : Nat) (h : mapLookup s.rooms roomId = some r) :
    getOrCreateRoom cf roomId s = (.ok r, s) := by
  unfold getOrCreateRoom
  rw [h]

theorem getOrCreateRoom_miss_ok (roomId : String) (s : GatewayState)
    (h : mapLookup s.rooms roomId = none) :
    getOrCreateRoom none roomId s =
      (.ok s.nextInstance,
       { s with
          pool := (getMediasoupWorker s.pool).2
          rooms := mapSet s.rooms roomId s.nextInstance
          closeHandlers := (roomId, s.nextInstance) :: s.closeHandlers
          nextInstance := s.nextInstance + 1
          constructions := s.constructions + 1
          log := s.log ++ ["creating a new Room roomId:" ++ roomId] }) := by
  unfold getOrCreateRoom
  rw [h]

theorem getOrCreateRoom_miss_err (roomId e : String) (s : GatewayState)
    (h : mapLookup s.rooms roomId = none) :
    getOrCreateRoom (some e) roomId s =
      (.error e,
       { s with
          pool := (getMediasoupWorker s.pool).2
          constructions := s.constructions + 1
          log := s.log ++ ["creating a new Room roomId:" ++ roomId] }) := by
  unfold getOrCreateRoom
  rw [h]

theorem getOrCreateK_hit (roomId : String) (s : GatewayState) (r : Nat)
    (h : mapLookup s.rooms roomId = some r) :
    ∀ k, getOrCreateK roomId k s = (List.replicate k (Except.ok r), s) := by
  intro k
  induction k with
  | zero => simp [getOrCreateK]
  | succ k ih =>
    rw [getOrCreateK, getOrCreateRoom_hit none roomId s r h]
    simp [ih, List.replicate_succ]

theorem getOrCreateRoom_preserves (cf : Option String) (rid : String)
    (s : GatewayState) (k : String) (v : Nat) (h : mapLookup s.rooms k = some v) :
    mapLookup (getOrCreateRoom cf rid s).2.rooms k = some v := by
  cases hm : mapLookup s.rooms rid with
  | some r => rw [getOrCreateRoom_hit cf rid s r hm]; exact h
  | none =>
    have hne : k ≠ rid := by
      intro heq; rw [heq, hm] at h; exact Option.noConfusion h
    cases cf with
    | some e => rw [getOrCreateRoom_miss_err rid e s hm]; exact h
    | none =>
      rw [getOrCreateRoom_miss_ok rid s hm]
      simpa [mapLookup_mapSet_other s.rooms rid k s.nextInstance hne] using h

/-- C1: with K >= 2 calls to `getOrCreateRoom` for the same previously-unseen
roomId serialized back-to-back by the global FIFO queue, exactly one
`Room.create` construction occurs and all K calls return the same Room
instance, which is the entry inserted by the first call. -/
theorem single_room_per_id_under_race (s : GatewayState) (roomId : String) (k : Nat)
    (habs : mapLookup s.rooms roomId = none) (hk : 2 ≤ k) :
    ∃ r, (getOrCreateK roomId k s).1 = List.replicate k (Except.ok r) ∧
      (getOrCreateK roomId k s).2.constructions = s.constructions + 1 ∧
      mapLookup (getOrCreateK roomId k s).2.rooms roomId = some r := by
  obtain ⟨j, rfl⟩ : ∃ j, k = j + 1 := ⟨k - 1, by omega⟩
  refine ⟨s.nextInstance, ?_⟩
  have hhit : mapLookup (mapSet s.rooms roomId s.nextInstance) roomId =
      some s.nextInstance := mapLookup_mapSet_self s.rooms roomId s.nextInstance
  rw [getOrCreateK, getOrCreateRoom_miss_ok roomId s habs]
  simp only
  rw [getOrCreateK_hit roomId _ s.nextInstance hhit j]
  exact ⟨by simp [List.replicate_succ], rfl, hhit⟩

/-- Witness for `single_room_per_id_under_race`: from the empty registry,
three serialized calls for room-A all return room instance 0 and perform a
single construction. -/
theorem single_room_per_id_witness :
    mapLookup (GatewayState.rooms ⟨⟨[100, 101], 0⟩, [], [], 0, 0, []⟩) "room-A" = none ∧
    2 ≤ 3 ∧
    ∃ r, (getOrCreateK ("room-A") 3 ⟨⟨[100, 101], 0⟩, [], [], 0, 0, []⟩).1 =
      List.replicate 3 (Except.ok r) ∧
      (getOrCreateK ("room-A") 3 ⟨⟨[100, 101], 0⟩, [], [], 0, 0, []⟩).2.constructions = 1 := by
  refine ⟨rfl, by decide, ?_⟩
  obtain ⟨r, h1, h2, -⟩ :=
    single_room_per_id_under_race ⟨⟨[100, 101], 0⟩, [], [], 0, 0, []⟩ "room-A" 3 rfl
      (by decide)
  exact ⟨r, h1, h2⟩

/-- C9: if `Room.create` rejects inside `getOrCreateRoom` for a
previously-absent roomId, the rooms map is unchanged, no close handler is
registered, and the error propagates to the caller. -/
theorem creation_failure_atomic (s : GatewayState) (roomId e : String)
    (habs : mapLookup s.rooms roomId = none) :
    (getOrCreateRoom (some e) roomId s).1 = Except.error e ∧
    (getOrCreateRoom (some e) roomId s).2.rooms = s.rooms ∧
    (getOrCreateRoom (some e) roomId s).2.closeHandlers = s.closeHandlers := by
  rw [getOrCreateRoom_miss_err roomId e s habs]
  exact ⟨rfl, rfl, rfl⟩

/-- Witness for `creation_failure_atomic`: a failing creation of room-A on
the empty registry leaves the registry empty and propagates the error. -/
theorem creation_failure_atomic_witness :
    mapLookup (GatewayState.rooms ⟨⟨[100], 0⟩, [], [], 0, 0, []⟩) "room-A" = none ∧
    (getOrCreateRoom (some ("boom")) "room-A" ⟨⟨[100], 0⟩, [], [], 0, 0, []⟩).1 =
      Except.error ("boom") ∧
    (getOrCreateRoom (some ("boom")) "room-A" ⟨⟨[100], 0⟩, [], [], 0, 0, []⟩).2.rooms = [] := by
  refine ⟨rfl, ?_, ?_⟩
  · exact (creation_failure_atomic ⟨⟨[100], 0⟩, [], [], 0, 0, []⟩ "room-A" "boom" rfl).1
  · exact (creation_failure_atomic ⟨⟨[100], 0⟩, [], [], 0, 0, []⟩ "room-A" "boom" rfl).2.1

/-- C6: the close handler registered at creation removes the registry entry
for its roomId when fired; `getOrCreateRoom` itself never removes any entry
(the close callback is the only deletion path among the registry
operations); and after closure, a subsequent `getOrCreateRoom` with the same
identifier constructs a new Room (a different instance, with a fresh
construction) rather than returning the closed one. -/
theorem room_removal_on_close (s : GatewayState) (roomId : String)
    (habs : mapLookup s.rooms roomId = none) :
    ∃ r₁ s₁, getOrCreateRoom none roomId s = (Except.ok r₁, s₁) ∧
      mapLookup s₁.rooms roomId = some r₁ ∧
      mapLookup (roomClose roomId s₁).rooms roomId = none ∧
      (∃ r₂, (getOrCreateRoom none roomId (roomClose roomId s₁)).1 = Except.ok r₂ ∧
        r₂ ≠ r₁ ∧
        (getOrCreateRoom none roomId (roomClose roomId s₁)).2.constructions =
          s₁.constructions + 1) ∧
      ∀ (s' : GatewayState) (cf : Option String) (rid k : String) (v : Nat),
        mapLookup s'.rooms k = some v →
        mapLookup (getOrCreateRoom cf rid s').2.rooms k = some v := by
  refine ⟨s.nextInstance,
    { s with
       pool := (getMediasoupWorker s.pool).2
       rooms := mapSet s.rooms roomId s.nextInstance
       closeHandlers := (roomId, s.nextInstance) :: s.closeHandlers
       nextInstance := s.nextInstance + 1
       constructions := s.constructions + 1
       log := s.log ++ ["creating a new Room roomId:" ++ roomId] },
    getOrCreateRoom_miss_ok roomId s habs,
    mapLookup_mapSet_self s.rooms roomId s.nextInstance, ?_, ?_, ?_⟩
  · exact mapLookup_mapDelete_self _ roomId
  · have habs2 : mapLookup (mapDelete (mapSet s.rooms roomId s.nextInstance) roomId)
        roomId = none := mapLookup_mapDelete_self _ roomId
    refine ⟨s.nextInstance + 1, ?_, Nat.succ_ne_self s.nextInstance, ?_⟩
    · rw [getOrCreateRoom_miss_ok _ _ habs2]
      rfl
    · rw [getOrCreateRoom_miss_ok _ _ habs2]
      rfl
  · intro s' cf rid k v h
    exact getOrCreateRoom_preserves cf rid s' k v h

/-- Witness for `room_removal_on_close` at the empty registry and room-A. -/
theorem room_removal_on_close_witness :
    mapLookup (GatewayState.rooms ⟨⟨[100], 0⟩, [], [], 0, 0, []⟩) "room-A" = none ∧
    ∃ r₁ s₁, getOrCreateRoom none ("room-A") ⟨⟨[100], 0⟩, [], [], 0, 0, []⟩ =
      (Except.ok r₁, s₁) ∧
      mapLookup (roomClose ("room-A") s₁).rooms "room-A" = none := by
  refine ⟨rfl, ?_⟩
  obtain ⟨r₁, s₁, h1, -, h3, -, -⟩ :=
    room_removal_on_close ⟨⟨[100], 0⟩, [], [], 0, 0, []⟩ "room-A" rfl
  exact ⟨r₁, s₁, h1, h3⟩

/-- C5: a connection request whose roomId or peerId query parameter is
missing or empty is rejected with status 400 and a reason text mentioning
both required fields, and is not processed further (the handler returns
with the server state untouched). -/
theorem missing_identifier_rejection (roomId peerId : Option String) (s : ServerState)
    (h : jsFalsyStr roomId = true ∨ jsFalsyStr peerId = true) :
    ∃ reason, connectionRequest roomId peerId s = (.rejected 400 reason, s) ∧
      (∃ p q, reason = p ++ "roomId" ++ q) ∧
      (∃ p q, reason = p ++ "peerId" ++ q) := by
  refine ⟨"Connection request without roomId and/or peerId", ?_,
    ⟨"Connection request without ", " and/or peerId", by decide⟩,
    ⟨"Connection request without roomId and/or ", "", by decide⟩⟩
  unfold connectionRequest
  rcases h with h | h <;> simp [h]

/-- Witness for `missing_identifier_rejection`: peerId present but roomId
absent is rejected with status 400. -/
theorem missing_identifier_rejection_witness :
    jsFalsyStr none = true ∧
    ∃ reason,
      connectionRequest none (some ("peer-1")) ⟨⟨⟨[100], 0⟩, [], [], 0, 0, []⟩, []⟩ =
        (.rejected 400 reason, ⟨⟨⟨[100], 0⟩, [], [], 0, 0, []⟩, []⟩) := by
  refine ⟨rfl, ?_⟩
  obtain ⟨reason, h1, -, -⟩ :=
    missing_identifier_rejection none (some ("peer-1"))
      ⟨⟨⟨[100], 0⟩, [], [], 0, 0, []⟩, []⟩ (Or.inl rfl)
  exact ⟨reason, h1⟩

/-- C10: a connection request rejected for a missing or empty roomId/peerId
has no other effect on gateway state: no unit of work is pushed onto the
serialized queue, the round-robin cursor is unchanged, the room registry is
unchanged — indeed the whole server state is unchanged. -/
theorem rejected_request_frame (roomId peerId : Option String) (s : ServerState)
    (h : jsFalsyStr roomId = true ∨ jsFalsyStr peerId = true) :
    (connectionRequest roomId peerId s).2.queue = s.queue ∧
    (connectionRequest roomId peerId s).2.gw.pool.nextMediasoupWorkerIdx =
      s.gw.pool.nextMediasoupWorkerIdx ∧
    (connectionRequest roomId peerId s).2.gw.rooms = s.gw.rooms ∧
    (connectionRequest roomId peerId s).2 = s := by
  have hstate : (connectionRequest roomId peerId s).2 = s := by
    unfold connectionRequest
    rcases h with h | h <;> simp [h]
  exact ⟨by rw [hstate], by rw [hstate], by rw [hstate], hstate⟩

/-- Witness for `rejected_request_frame`: with roomId present but peerId
empty, the server state is untouched. -/
theorem rejected_request_frame_witness :
    jsFalsyStr (some ("")) = true ∧
    (connectionRequest (some ("room-A")) (some (""))
        ⟨⟨⟨[100], 0⟩, [], [], 0, 0, []⟩, []⟩).2 =
      ⟨⟨⟨[100], 0⟩, [], [], 0, 0, []⟩, []⟩ := by
  refine ⟨rfl, ?_⟩
  exact (rejected_request_frame (some ("room-A")) (some (""))
    ⟨⟨⟨[100], 0⟩, [], [], 0, 0, []⟩, []⟩ (Or.inr rfl)).2.2.2

/-- C7: any error thrown inside a queued connection-acceptance unit of work
(Room construction failure, or failure of the Room's connection-handling
entry point) is logged and turns into a rejection of the original connection
request with that error as reason; the failed unit is popped from the FIFO
queue and never re-enqueued (no retry). -/
theorem queued_task_failure_rejects (createFails handleFails : Option String)
    (item : QueueItem) (rest : List QueueItem) (gw : GatewayState) (e : String)
    (herr : (mapLookup gw.rooms item.roomId = none ∧ createFails = some e) ∨
      (createFails = none ∧ handleFails = some e)) :
    (processQueueStep createFails handleFails ⟨gw, item :: rest⟩).1 =
      some (.rejectedWith e) ∧
    (processQueueStep createFails handleFails ⟨gw, item :: rest⟩).2.queue = rest ∧
    ∃ pre, (processQueueStep createFails handleFails ⟨gw, item :: rest⟩).2.gw.log =
      pre ++ ["room creation or room joining failed:" ++ e] := by
  rcases herr with ⟨habs, rfl⟩ | ⟨rfl, rfl⟩
  · rw [processQueueStep]
    simp only [runQueuedTask, getOrCreateRoom_miss_err item.roomId e gw habs]
    exact ⟨trivial, trivial, _, rfl⟩
  · rw [processQueueStep]
    cases hm : mapLookup gw.rooms item.roomId with
    | some r =>
      simp only [runQueuedTask, getOrCreateRoom_hit none item.roomId gw r hm]
      exact ⟨trivial, trivial, _, rfl⟩
    | none =>
      simp only [runQueuedTask, getOrCreateRoom_miss_ok item.roomId gw hm]
      exact ⟨trivial, trivial, _, rfl⟩

/-- Witness for `queued_task_failure_rejects`: a queued unit whose Room
construction fails with error boom rejects the request with boom and leaves
the queue empty. -/
theorem queued_task_failure_rejects_witness :
    (mapLookup (GatewayState.rooms ⟨⟨[100], 0⟩, [], [], 0, 0, []⟩) "room-A" = none ∧
      (some ("boom") : Option String) = some ("boom")) ∧
    (processQueueStep (some ("boom")) none
        ⟨⟨⟨[100], 0⟩, [], [], 0, 0, []⟩, [⟨"room-A", "peer-1"⟩]⟩).1 =
      some (.rejectedWith ("boom")) := by
  refine ⟨⟨rfl, rfl⟩, ?_⟩
  exact (queued_task_failure_rejects (some ("boom")) none ⟨"room-A", "peer-1"⟩ []
    ⟨⟨[100], 0⟩, [], [], 0, 0, []⟩ "boom" (Or.inl ⟨rfl, rfl⟩)).1

/-- C8: when a worker reports the died event, the handler logs the event
(naming the worker pid) and schedules process-wide exit(1) exactly 2000 ms
later: advancing the clock by 1999 ms fires nothing, advancing it by
2000 ms fires exit code 1. The worker pool membership is unchanged — the
worker is neither restarted nor replaced. -/
theorem worker_died_fatal_after_2s (pid : Nat) (t : TimerState) (hq : t.timers = []) :
    (onWorkerDied pid t).workers = t.workers ∧
    (∃ pre msg p q, (onWorkerDied pid t).log = pre ++ [msg] ∧
      msg = p ++ toString pid ++ q) ∧
    (advanceTo (t.now + 1999) (onWorkerDied pid t)).1 = [] ∧
    (advanceTo (t.now + 2000) (onWorkerDied pid t)).1 = [1] := by
  refine ⟨rfl,
    ⟨t.log, _, "mediasoup Worker died, exiting in 2 seconds... pid:", "",
      rfl, (String.append_empty _).symm⟩, ?_, ?_⟩
  · simp [advanceTo, onWorkerDied, hq]
  · simp [advanceTo, onWorkerDied, hq]

/-- Witness for `worker_died_fatal_after_2s` at a quiescent two-worker
state: the exit fires exactly 2000 ms after the death event. -/
theorem worker_died_fatal_witness :
    (TimerState.timers ⟨5000, [], [100, 101], []⟩ = ([] : List (Nat × Nat))) ∧
    (advanceTo 6999 (onWorkerDied 100 ⟨5000, [], [100, 101], []⟩)).1 = [] ∧
    (advanceTo 7000 (onWorkerDied 100 ⟨5000, [], [100, 101], []⟩)).1 = [1] := by
  refine ⟨rfl, ?_, ?_⟩
  · exact (worker_died_fatal_after_2s 100 ⟨5000, [], [100, 101], []⟩ rfl).2.2.1
  · exact (worker_died_fatal_after_2s 100 ⟨5000, [], [100, 101], []⟩ rfl).2.2.2

/-- C3 counterexample: the claim states that the response body equals the
error message and that an explicit status field is always used. For the
concrete error with name Error, message boom and explicit status 0, the
code responds with status 500 (JS `||` treats the explicit 0 as absent) and
body `Error: boom` (the stringified error), not `boom`. -/
theorem error_translation_counterexample :
    (expressErrorHandler ⟨"Error", "boom", some 0⟩).1.status ≠ 0 ∧
    (expressErrorHandler ⟨"Error", "boom", some 0⟩).1.body ≠ "boom" := by
  constructor
  · intro h
    simp [expressErrorHandler] at h
  · intro h
    rw [show (expressErrorHandler ⟨"Error", "boom", some 0⟩).1.body =
      "Error: boom" from rfl] at h
    exact absurd h (by decide)

/-- C3 amended: if the error carries an explicit truthy (non-zero) status
field that status is used; otherwise (status absent or 0) a TypeError
yields 400 and any other error yields 500; in all cases the plain-text
response body is the JS stringification of the error (`name: message`) and
the error's message is installed as the HTTP status message. -/
theorem error_translation_amended (e : JsError) :
    (∀ st, e.status = some st → st ≠ 0 → (expressErrorHandler e).1.status = st) ∧
    ((e.status = none ∨ e.status = some 0) → e.name = "TypeError" →
      (expressErrorHandler e).1.status = 400) ∧
    ((e.status = none ∨ e.status = some 0) → e.name ≠ "TypeError" →
      (expressErrorHandler e).1.status = 500) ∧
    (expressErrorHandler e).1.body = errorToString e ∧
    (expressErrorHandler e).1.statusMessage = some e.message ∧
    (expressErrorHandler e).1.isJson = false := by
  refine ⟨?_, ?_, ?_, rfl, rfl, rfl⟩
  · intro st hst hne
    simp [expressErrorHandler, hst, hne]
  · rintro (hst | hst) hname <;> simp [expressErrorHandler, hst, hname]
  · rintro (hst | hst) hname <;> simp [expressErrorHandler, hst, hname]

/-- Witness for `error_translation_amended`: a TypeError with no status
yields 400 with body `TypeError: bad`. -/
theorem error_translation_amended_witness :
    (expressErrorHandler ⟨"TypeError", "bad", none⟩).1.status = 400 ∧
    (expressErrorHandler ⟨"TypeError", "bad", none⟩).1.body = "TypeError: bad" := by
  constructor
  · exact (error_translation_amended ⟨"TypeError", "bad", none⟩).2.1 (Or.inl rfl) rfl
  · rw [(error_translation_amended ⟨"TypeError", "bad", none⟩).2.2.2.1]
    decide

/-- C4: for every endpoint of the /rooms/:roomId family, a roomId absent
from the registry yields a 404 response with no Room method invoked; and
no endpoint of the family ever modifies the rooms map (no implicit
creation), whatever the registry, endpoint, or Room delegate outcome. -/
theorem unknown_room_404 (rooms : List (String × Nat)) (roomId : String)
    (ep : Endpoint) (delegate : Endpoint → Except JsError String) :
    (mapLookup rooms roomId = none →
      (handleRestRequest rooms roomId ep delegate).1.status = 404 ∧
      (handleRestRequest rooms roomId ep delegate).2.1 = []) ∧
    (handleRestRequest rooms roomId ep delegate).2.2 = rooms := by
  constructor
  · intro h
    simp [handleRestRequest, h, expressErrorHandler]
  · unfold handleRestRequest
    cases hm : mapLookup rooms roomId with
    | none => rfl
    | some r =>
      cases hd : delegate ep with
      | error e => rfl
      | ok data => cases ep <;> rfl

/-- Witness for `unknown_room_404`: GET /rooms/does-not-exist on the empty
registry returns 404, invokes no Room method, and leaves the registry
empty. -/
theorem unknown_room_404_witness :
    mapLookup [] "does-not-exist" = none ∧
    (handleRestRequest [] "does-not-exist" .getRoom (fun _ => .ok (""))).1.status = 404 ∧
    (handleRestRequest [] "does-not-exist" .getRoom (fun _ => .ok (""))).2.1 = [] ∧
    (handleRestRequest [] "does-not-exist" .getRoom (fun _ => .ok (""))).2.2 = [] := by
  refine ⟨rfl, ?_, ?_, ?_⟩
  · exact ((unknown_room_404 [] "does-not-exist" .getRoom (fun _ => .ok (""))).1 rfl).1
  · exact ((unknown_room_404 [] "does-not-exist" .getRoom (fun _ => .ok (""))).1 rfl).2
  · exact (unknown_room_404 [] "does-not-exist" .getRoom (fun _ => .ok (""))).2
